import Mathlib

/-!
Verification development for the content-acquisition core of the repository:
`src/services/enhanced_search_coordinator.py` (EnhancedSearchCoordinator) and
`src/services/content_size_monitor.py` (ContentSizeMonitor).

The Python code is shallowly embedded: dict-shaped result items become a
record of their text/metadata fields (a Python field that is absent and a
field holding the empty string are indistinguishable to every size/quality
computation in the source — `if field in result and result[field]` skips
both, and an empty string would contribute length 0 anyway — so text fields
are plain strings with `""` for "absent/falsy"); Python floats become `ℚ`;
`dict.get(key, default)` on the four category keys becomes `Option.getD`;
exceptions become `Except`.  Side-effecting calls that do not touch the
data flow (logging, `asyncio.sleep`, `salvar_etapa` / `_save_monitoring_data`
persistence, wall-clock timing) are elided.
-/

/-- A single search-result item (the dict shape produced by the search
collaborator).  `url` is the dedup identity (default `""` when missing),
`platform` defaults to `"web"`, `source` to `"unknown"`, `viral_score`
to `0`, exactly as the corresponding `.get` defaults in the source. -/
structure ResultItem where
  title : String := ""
  snippet : String := ""
  content : String := ""
  description : String := ""
  text : String := ""
  caption : String := ""
  url : String := ""
  platform : String := "web"
  source : String := "unknown"
  viral_score : ℚ := 0
deriving DecidableEq, Repr, Inhabited

/-- Marketing-insights record: the only parts the coordinator/monitor read are
`statistics.total_insights` and `statistics.high_value_count` (via `.get`
chains defaulting to 0). -/
structure Insights where
  total_insights : ℕ := 0
  high_value_count : ℕ := 0
deriving DecidableEq, Repr, Inhabited

/-- Size of one item as computed by the coordinator,
`EnhancedSearchCoordinator._calculate_content_size` (and `_add_unique_results`):
the summed lengths of the five fields `title, snippet, content, description,
text`.  (`caption` is NOT in this list.) -/
def item_size_coord (r : ResultItem) : ℕ :=
  r.title.length + r.snippet.length + r.content.length +
    r.description.length + r.text.length

/-- Size of one item as computed by the monitor
(`ContentSizeMonitor._calculate_total_size`, `_analyze_content_breakdown`,
`_analyze_size_by_source`): the six fields `title, snippet, content,
description, text, caption`. -/
def item_size_mon (r : ResultItem) : ℕ :=
  r.title.length + r.snippet.length + r.content.length +
    r.description.length + r.text.length + r.caption.length

/-- Input dict of the monitor.  `none` models a missing category key
(each access in the source is `search_results.get(key, [])`). -/
structure MonitorInput where
  web_results : Option (List ResultItem) := none
  social_results : Option (List ResultItem) := none
  youtube_results : Option (List ResultItem) := none
  viral_content : Option (List ResultItem) := none
  marketing_insights : Option Insights := none
deriving DecidableEq, Repr, Inhabited

/-- Models `dict.get(key, [])`. -/
def getResults (o : Option (List ResultItem)) : List ResultItem := o.getD []

/-- `ContentSizeMonitor.target_size_kb` (set in `__init__`). -/
def target_size_kb : ℕ := 300

/-- `ContentSizeMonitor.target_size_bytes = target_size_kb * 1024`. -/
def target_size_bytes : ℕ := target_size_kb * 1024

/-- `ContentSizeMonitor._calculate_total_size`: the snapshot recomputation.
Sums the six text-field lengths over the four category lists
`web_results, social_results, youtube_results, viral_content`. -/
def _calculate_total_size (inp : MonitorInput) : ℕ :=
  (( getResults inp.web_results ++ getResults inp.social_results ++
     getResults inp.youtube_results ++ getResults inp.viral_content).map
       item_size_mon).sum

/-- Per-category entry of `_analyze_content_breakdown`. -/
structure TypeBreakdown where
  count : ℕ
  size_bytes : ℕ
  size_kb : ℚ
  avg_size_per_item : ℚ
  percentage_of_total : ℚ
deriving DecidableEq, Repr

/-- Breakdown over the four fixed category keys. -/
structure ContentBreakdown where
  web_results : TypeBreakdown
  social_results : TypeBreakdown
  youtube_results : TypeBreakdown
  viral_content : TypeBreakdown
deriving DecidableEq, Repr

/-- One category's count/size pair (before percentages). -/
def typeStats (rs : List ResultItem) : ℕ × ℕ :=
  (rs.length, (rs.map item_size_mon).sum)

/-- Builds one `TypeBreakdown` entry given the grand total size. -/
def mkTypeBreakdown (rs : List ResultItem) (grand_total : ℕ) : TypeBreakdown :=
  let c := (typeStats rs).1
  let s := (typeStats rs).2
  { count := c
    size_bytes := s
    size_kb := (s : ℚ) / 1024
    avg_size_per_item := if 0 < c then (s : ℚ) / (c : ℚ) else 0
    percentage_of_total := if 0 < grand_total then (s : ℚ) / (grand_total : ℚ) * 100 else 0 }

/-- `ContentSizeMonitor._analyze_content_breakdown`: per-category count, size,
average item size (0-guarded) and percentage of the grand total (0 when the
grand total is 0). -/
def _analyze_content_breakdown (inp : MonitorInput) : ContentBreakdown :=
  let w := getResults inp.web_results
  let s := getResults inp.social_results
  let y := getResults inp.youtube_results
  let v := getResults inp.viral_content
  let grand := (typeStats w).2 + (typeStats s).2 + (typeStats y).2 + (typeStats v).2
  { web_results := mkTypeBreakdown w grand
    social_results := mkTypeBreakdown s grand
    youtube_results := mkTypeBreakdown y grand
    viral_content := mkTypeBreakdown v grand }

/-- One step of `_analyze_size_by_source`: bump the (count, size_bytes)
entry of the item's `source` in the association list, appending a new entry
(Python dict insertion order) when the source is new.  The source also keeps
a `size_kb` field; it is always `size_bytes / 1024`, so it is derived rather
than stored. -/
def updSourceAcc (acc : List (String × ℕ × ℕ)) (r : ResultItem) : List (String × ℕ × ℕ) :=
  if acc.any (fun e => e.1 = r.source) then
    acc.map (fun e => if e.1 = r.source then (e.1, e.2.1 + 1, e.2.2 + item_size_mon r) else e)
  else
    acc ++ [(r.source, 1, item_size_mon r)]

/-- `ContentSizeMonitor._analyze_size_by_source`: groups
web/social/youtube items by `source` (note: `viral_content` is excluded
here, exactly as in the source). -/
def _analyze_size_by_source (inp : MonitorInput) : List (String × ℕ × ℕ) :=
  (( getResults inp.web_results ++ getResults inp.social_results ++
     getResults inp.youtube_results).foldl updSourceAcc [])

/-- Python substring test `needle in hay` (contiguous substring). -/
def strContainsB (hay needle : String) : Bool :=
  decide (List.IsInfix needle.data hay.data)

/-- Python `str.lower()` (per-character lowering). -/
def lowerStr (s : String) : String := s.map Char.toLower

/-- `_get_item_text` (identical in monitor and coordinator's competitor
helpers): concatenates the non-empty fields, in the order
`content, description, snippet, text, caption, title`, each followed by a
space, then strips. -/
def _get_item_text (r : ResultItem) : String :=
  (([r.content, r.description, r.snippet, r.text, r.caption, r.title].foldl
      (fun acc f => if f = "" then acc else acc ++ f ++ " ") "")).trim

/-- The fixed trusted-domain allow-list of `_calculate_quality_metrics`. -/
def reliable_domains : List String :=
  ["g1.globo.com", "exame.com", "valor.globo.com",
   "estadao.com.br", "folha.uol.com.br", "infomoney.com.br",
   "youtube.com", "instagram.com", "facebook.com"]

/-- The fixed topical-keyword list of `_calculate_quality_metrics`. -/
def marketing_keywords : List String :=
  ["marketing", "vendas", "conversão", "ROI", "campanha",
   "anúncio", "publicidade", "estratégia", "funil"]

/-- The five quality sub-scores plus the weighted overall score
(`overall_quality`), all Python floats, modelled in `ℚ`. -/
structure QualityMetrics where
  content_diversity : ℚ
  source_reliability : ℚ
  marketing_relevance : ℚ
  viral_content_ratio : ℚ
  engagement_quality : ℚ
  overall_quality : ℚ
deriving DecidableEq, Repr

/-- `ContentSizeMonitor._calculate_quality_metrics`.  Note two facts taken
straight from the source: `all_results` (the denominator `total_sources`)
covers only `web_results ++ social_results ++ youtube_results`, NOT
`viral_content`; and the viral ratio's numerator is `len(viral_content)`.
All divisions are guarded by `total_sources > 0`. -/
def _calculate_quality_metrics (inp : MonitorInput) : QualityMetrics :=
  let all := getResults inp.web_results ++ getResults inp.social_results ++
    getResults inp.youtube_results
  let content_types := (all.map (fun r => r.platform ++ "_" ++ r.source)).dedup
  let diversity : ℚ := (min 10 content_types.length : ℕ)
  let total := all.length
  let reliable := (all.filter
    (fun r => reliable_domains.any (fun d => strContainsB r.url d))).length
  let reliability : ℚ := if 0 < total then (reliable : ℚ) / (total : ℚ) * 10 else 0
  let relevant := (all.filter
    (fun r => marketing_keywords.any
      (fun k => strContainsB (lowerStr (_get_item_text r)) k))).length
  let relevance : ℚ := if 0 < total then (relevant : ℚ) / (total : ℚ) * 10 else 0
  let viralLen := (getResults inp.viral_content).length
  let viralRatio : ℚ := if 0 < total then (viralLen : ℚ) / (total : ℚ) * 10 else 0
  let highEng := (all.filter (fun r => 7 ≤ r.viral_score)).length
  let engagement : ℚ := if 0 < total then (highEng : ℚ) / (total : ℚ) * 10 else 0
  let overall : ℚ := diversity * 0.2 + reliability * 0.25 + relevance * 0.3 +
    viralRatio * 0.15 + engagement * 0.1
  { content_diversity := diversity
    source_reliability := reliability
    marketing_relevance := relevance
    viral_content_ratio := viralRatio
    engagement_quality := engagement
    overall_quality := overall }

/-- The recommendation strings of `_generate_recommendations`, as tagged
values (the human-readable rendering with interpolated numbers is elided;
each constructor carries the interpolated quantity). -/
inductive Recommendation where
  | expandSearch (deficit_kb : ℚ)
  | complementaryQueriesHint
  | targetMet (kb : ℚ)
  | lowQuality (score : ℚ)
  | improveRelevance
  | moreViralContent
  | improveSources
  | highQuality (score : ℚ)
  | diversifyFromWeb
  | balanceFromSocial
  | goodDiversity
  | increaseInsights
  | richInsights (n : ℕ)
deriving DecidableEq, Repr

/-- `ContentSizeMonitor._generate_recommendations`, with the monitoring
fields it reads passed explicitly. -/
def _generate_recommendations (current_size_kb quality_score : ℚ)
    (target_achieved : Bool) (qm : QualityMetrics) (cb : ContentBreakdown)
    (insights : Option Insights) : List Recommendation :=
  (if target_achieved then
      [Recommendation.targetMet current_size_kb]
    else
      [Recommendation.expandSearch ((target_size_kb : ℚ) - current_size_kb),
       Recommendation.complementaryQueriesHint]) ++
  (if quality_score < 7 then
      [Recommendation.lowQuality quality_score] ++
      (if qm.marketing_relevance < 6 then [Recommendation.improveRelevance] else []) ++
      (if qm.viral_content_ratio < 5 then [Recommendation.moreViralContent] else []) ++
      (if qm.source_reliability < 6 then [Recommendation.improveSources] else [])
    else
      [Recommendation.highQuality quality_score]) ++
  (if 80 < cb.web_results.percentage_of_total then
      [Recommendation.diversifyFromWeb]
    else if 70 < cb.social_results.percentage_of_total then
      [Recommendation.balanceFromSocial]
    else
      [Recommendation.goodDiversity]) ++
  (match insights with
   | none => []
   | some ins =>
     if ins.total_insights < 20 then [Recommendation.increaseInsights]
     else [Recommendation.richInsights ins.total_insights])

/-- The monitoring snapshot dict built by `monitor_content_collection`
(`session_id` kept; the wall-clock `monitoring_started` timestamp elided). -/
structure MonitoringData where
  session_id : String
  target_size_kb : ℕ
  current_size_kb : ℚ
  current_size_bytes : ℕ
  quality_score : ℚ
  content_breakdown : ContentBreakdown
  size_by_source : List (String × ℕ × ℕ)
  quality_metrics : QualityMetrics
  recommendations : List Recommendation
  target_achieved : Bool
deriving DecidableEq, Repr

/-- `ContentSizeMonitor.monitor_content_collection`: the full measurement.
The `_save_monitoring_data` call (pure persistence, internally
exception-swallowing) is elided.  Every computation in the body is total:
all divisions are 0-guarded, so the `except` re-raise branch of the source
is unreachable for the model. -/
def monitor_content_collection (inp : MonitorInput) (session_id : String) :
    MonitoringData :=
  let current_size := _calculate_total_size inp
  let cb := _analyze_content_breakdown inp
  let sbs := _analyze_size_by_source inp
  let qm := _calculate_quality_metrics inp
  let quality_score := qm.overall_quality
  let achieved := decide (target_size_bytes ≤ current_size)
  { session_id := session_id
    target_size_kb := target_size_kb
    current_size_kb := (current_size : ℚ) / 1024
    current_size_bytes := current_size
    quality_score := quality_score
    content_breakdown := cb
    size_by_source := sbs
    quality_metrics := qm
    recommendations := _generate_recommendations ((current_size : ℚ) / 1024)
      quality_score achieved qm cb inp.marketing_insights
    target_achieved := achieved }

/-- A batch returned by the external search collaborator
(`real_search_orchestrator.execute_massive_real_search`), projected onto the
four category keys the coordinator reads via `.get(key, [])`. -/
structure Batch where
  web_results : List ResultItem := []
  social_results : List ResultItem := []
  youtube_results : List ResultItem := []
  viral_content : List ResultItem := []
deriving DecidableEq, Repr, Inhabited

/-- One entry of `search_results['marketing_queries_executed']`. -/
structure QueryExec where
  query : String
  results_count : ℕ
  content_size : ℕ
deriving DecidableEq, Repr

/-- The `search_results['statistics']` sub-dict.  `target_achieved` is only
inserted by the FASE-4 update (the key is absent before that), hence the
`Option`; the wall-clock `search_duration` is elided. -/
structure Statistics where
  queries_executed : ℕ := 0
  total_sources : ℕ := 0
  content_size_kb : ℚ := 0
  marketing_insights_found : ℕ := 0
  high_value_insights : ℕ := 0
  target_achieved : Option Bool := none
deriving DecidableEq, Repr

/-- The coordinator's `search_results` dict (the aggregate result set).
The `search_started` timestamp is elided. -/
structure SearchResults where
  base_query : String
  session_id : String
  marketing_queries_executed : List QueryExec := []
  total_content_size : ℕ := 0
  web_results : List ResultItem := []
  social_results : List ResultItem := []
  youtube_results : List ResultItem := []
  viral_content : List ResultItem := []
  marketing_insights : Option Insights := none
  statistics : Statistics := {}
deriving DecidableEq, Repr

/-- The dict initialised at the top of `execute_marketing_focused_search`. -/
def initial_search_results (base_query session_id : String) : SearchResults :=
  { base_query := base_query, session_id := session_id }

/-- `EnhancedSearchCoordinator.target_content_size = 300 * 1024` ("300KB
mínimo"). -/
def target_content_size : ℕ := 300 * 1024

/-- The session context dict; the coordinator reads only
`context.get('segmento', '')` and `context.get('produto', '')`. -/
structure SearchContext where
  segmento : String := ""
  produto : String := ""
deriving DecidableEq, Repr, Inhabited

/-- `self.marketing_focused_queries` (the fixed generic catalog, 15 entries). -/
def marketing_focused_queries : List String :=
  ["estratégias marketing digital",
   "campanhas alta conversão",
   "anúncios que converteram",
   "cases sucesso marketing",
   "ROI campanhas digitais",
   "funil vendas otimizado",
   "landing pages alta conversão",
   "copy que converte",
   "segmentação audiência",
   "automação marketing",
   "growth hacking",
   "viral marketing",
   "influencer marketing ROI",
   "email marketing conversão",
   "social media engagement"]

/-- The ten interpolated context-specific queries of
`_generate_marketing_queries` (built only when both `segmento` and
`produto` are non-empty / truthy). -/
def specificQueries (segmento produto : String) : List String :=
  [segmento ++ " " ++ produto ++ " marketing estratégias",
   segmento ++ " " ++ produto ++ " campanhas sucesso",
   segmento ++ " " ++ produto ++ " conversão alta",
   segmento ++ " " ++ produto ++ " ROI marketing",
   segmento ++ " " ++ produto ++ " cases sucesso",
   "como vender " ++ produto ++ " " ++ segmento,
   "marketing " ++ produto ++ " " ++ segmento ++ " Brasil",
   "anúncios " ++ produto ++ " " ++ segmento ++ " converteram",
   "funil vendas " ++ produto ++ " " ++ segmento,
   "copy " ++ produto ++ " " ++ segmento ++ " alta conversão"]

/-- First-occurrence deduplication, i.e. Python's
`list(dict.fromkeys(xs))`. -/
def dedupKeepFirstAux (seen : List String) : List String → List String
  | [] => []
  | q :: qs =>
    if q ∈ seen then dedupKeepFirstAux seen qs
    else q :: dedupKeepFirstAux (q :: seen) qs

/-- First-occurrence deduplication of a whole list. -/
def dedupKeepFirst (l : List String) : List String := dedupKeepFirstAux [] l

/-- `EnhancedSearchCoordinator._generate_marketing_queries`: the specific
interpolated queries (when both context terms are truthy) followed by the
generic catalog, first-occurrence deduplicated and truncated to 15.
The `base_query` parameter is present but unused, as in the source. -/
def _generate_marketing_queries (_base_query : String) (ctx : SearchContext) :
    List String :=
  let specific :=
    if ctx.segmento ≠ "" ∧ ctx.produto ≠ "" then
      specificQueries ctx.segmento ctx.produto
    else []
  (dedupKeepFirst (specific ++ marketing_focused_queries)).take 15

/-- Worker of `_filter_unique_results`: walks the incoming items carrying
the set of already-seen URLs; an item is kept iff its `url` is truthy
(non-empty) and unseen, and keeping it adds its URL to the seen set (so the
filter also deduplicates within the incoming batch). -/
def filterUniqueAux : List ResultItem → List String → List ResultItem
  | [], _ => []
  | r :: rs, seen =>
    if r.url ≠ "" ∧ r.url ∉ seen then r :: filterUniqueAux rs (r.url :: seen)
    else filterUniqueAux rs seen

/-- `EnhancedSearchCoordinator._filter_unique_results`: the seen-set is
initialised with `set(r.get('url', '') for r in existing_results)`. -/
def _filter_unique_results (new_results existing_results : List ResultItem) :
    List ResultItem :=
  filterUniqueAux new_results (existing_results.map (fun r => r.url))

/-- `EnhancedSearchCoordinator._calculate_content_size`: the coordinator's
(merge-time) size of a batch — five text fields, summed over the
`web_results`, `social_results` and `youtube_results` lists only
(`viral_content` is NOT included). -/
def _calculate_content_size (b : Batch) : ℕ :=
  ((b.web_results ++ b.social_results ++ b.youtube_results).map
    item_size_coord).sum

/-- Coordinator-size of a plain list of items (the five-field sum used when
`_add_unique_results` measures the items it kept). -/
def coordSizeOf (l : List ResultItem) : ℕ := (l.map item_size_coord).sum

/-- `EnhancedSearchCoordinator._add_unique_results`: per category, filter
the incoming items against the current list, append the survivors and count
their five-field size; returns the updated set and the added size.
The source guards each append with `if unique_new_items:`. -/
def _add_unique_results (sr : SearchResults) (b : Batch) : SearchResults × ℕ :=
  let uw := _filter_unique_results b.web_results sr.web_results
  let sr1 := if uw.isEmpty then sr else { sr with web_results := sr.web_results ++ uw }
  let s1 := if uw.isEmpty then 0 else coordSizeOf uw
  let us := _filter_unique_results b.social_results sr1.social_results
  let sr2 := if us.isEmpty then sr1 else { sr1 with social_results := sr1.social_results ++ us }
  let s2 := if us.isEmpty then 0 else coordSizeOf us
  let uy := _filter_unique_results b.youtube_results sr2.youtube_results
  let sr3 := if uy.isEmpty then sr2 else { sr2 with youtube_results := sr2.youtube_results ++ uy }
  let s3 := if uy.isEmpty then 0 else coordSizeOf uy
  (sr3, s1 + s2 + s3)

/-- One dedup-merge as performed by the caller of `_add_unique_results`
(`ensure_minimum_content_size` lines 308-309: merge, then
`total_content_size += returned size`). -/
def mergeBatch (sr : SearchResults) (b : Batch) : SearchResults :=
  let p := _add_unique_results sr b
  { p.1 with total_content_size := p.1.total_content_size + p.2 }

/-- FASE 1 of `execute_marketing_focused_search`: a truthy base result
(`some b`) is extended into all four category lists unfiltered, and the
running counter grows by the coordinator-size of the batch; a falsy result
(`none`) leaves everything untouched. -/
def basePhase (sr : SearchResults) : Option Batch → SearchResults
  | none => sr
  | some b =>
    { sr with
      web_results := sr.web_results ++ b.web_results
      social_results := sr.social_results ++ b.social_results
      youtube_results := sr.youtube_results ++ b.youtube_results
      viral_content := sr.viral_content ++ b.viral_content
      total_content_size := sr.total_content_size + _calculate_content_size b }

/-- One complementary-round merge of the FASE 2 loop (lines 128-157):
per-category unique filtering and append, but the running counter grows by
`_calculate_content_size(complementary_results)` — the size of the FULL
incoming batch, not of the kept items — and a `marketing_queries_executed`
entry records the query, the kept-item count, and that full-batch size. -/
def mergeRound (sr : SearchResults) (q : String) (res : Batch) : SearchResults :=
  let new_web := _filter_unique_results res.web_results sr.web_results
  let new_social := _filter_unique_results res.social_results sr.social_results
  let new_youtube := _filter_unique_results res.youtube_results sr.youtube_results
  let additional := _calculate_content_size res
  { sr with
    web_results := sr.web_results ++ new_web
    social_results := sr.social_results ++ new_social
    youtube_results := sr.youtube_results ++ new_youtube
    total_content_size := sr.total_content_size + additional
    marketing_queries_executed := sr.marketing_queries_executed ++
      [{ query := q,
         results_count := new_web.length + new_social.length + new_youtube.length,
         content_size := additional }] }

/-- A straight-line sequence of FASE-2-style merge rounds (used to reason
about the running counter across any sequence of merges). -/
def mergeRounds (sr : SearchResults) : List (String × Batch) → SearchResults
  | [] => sr
  | (q, b) :: rest => mergeRounds (mergeRound sr q b) rest

/-- The FASE 2 loop of `execute_marketing_focused_search`.  At the top of
each iteration the target check may break out; otherwise the collaborator
is called: an exception (`Except.error`) is caught and the loop continues
with the next query; a falsy result (`ok none`) skips the merge; a truthy
result is merged via `mergeRound`.  The second component counts the
collaborator calls actually issued. -/
def expansionLoop (collab : String → Except ε (Option Batch)) :
    List String → SearchResults → SearchResults × ℕ
  | [], sr => (sr, 0)
  | q :: qs, sr =>
    if target_content_size ≤ sr.total_content_size then (sr, 0)
    else
      match collab q with
      | Except.error _ =>
        let p := expansionLoop collab qs sr
        (p.1, p.2 + 1)
      | Except.ok none =>
        let p := expansionLoop collab qs sr
        (p.1, p.2 + 1)
      | Except.ok (some res) =>
        let p := expansionLoop collab qs (mergeRound sr q res)
        (p.1, p.2 + 1)

/-- The FASE 4 statistics update (lines 181-189). -/
def updateStatistics (sr : SearchResults) (ins : Insights) : Statistics :=
  { queries_executed := sr.marketing_queries_executed.length + 1
    total_sources := sr.web_results.length + sr.social_results.length +
      sr.youtube_results.length
    content_size_kb := (sr.total_content_size : ℚ) / 1024
    marketing_insights_found := ins.total_insights
    high_value_insights := ins.high_value_count
    target_achieved := some (decide (target_content_size ≤ sr.total_content_size)) }

/-- Outcome of `execute_marketing_focused_search` when it raises: either a
re-raised collaborator exception (base search or insights extraction), or
the `NameError` from the success-path logging. -/
inductive ExecErr (ε : Type) where
  | fromCollaborator : ε → ExecErr ε
  | nameErrorStats : ExecErr ε
deriving DecidableEq, Repr

/-- `EnhancedSearchCoordinator.execute_marketing_focused_search`.  The base
search result and the insights-extraction result are passed as
already-resolved `Except` values of the two external awaits; per-query
expansion results come from `collab`.  A base-search exception escapes the
inner code, is caught by the function's own `except` and re-raised
(`Except.error (fromCollaborator e)`); likewise an insights-extraction
exception.  On the success path, line 195 of the source reads the undefined
name `stats` (`logger.info(f"📊 {stats['total_sources']} fontes coletadas")`
— the populated dict lives in `search_results['statistics']`), so a
`NameError` is raised, caught by the same `except`, and re-raised: the
`return search_results` on line 200 is unreachable. -/
def execute_marketing_focused_search (baseRes : Except ε (Option Batch))
    (collab : String → Except ε (Option Batch))
    (insightsRes : Except ε Insights)
    (base_query session_id : String) (ctx : SearchContext) :
    Except (ExecErr ε) SearchResults :=
  match baseRes with
  | Except.error e => Except.error (ExecErr.fromCollaborator e)
  | Except.ok ob =>
    let sr0 := basePhase (initial_search_results base_query session_id) ob
    let sr1 := (expansionLoop collab (_generate_marketing_queries base_query ctx) sr0).1
    match insightsRes with
    | Except.error e => Except.error (ExecErr.fromCollaborator e)
    | Except.ok ins =>
      let sr2 := { sr1 with
        marketing_insights := some ins
        statistics := updateStatistics sr1 ins }
      let _ := sr2
      Except.error ExecErr.nameErrorStats

/-- The coordinator's aggregate dict viewed as monitor input (the pipeline
hands `search_results` straight to `monitor_content_collection`; every
category key is present there, hence `some`). -/
def toMonitorInput (sr : SearchResults) : MonitorInput :=
  { web_results := some sr.web_results
    social_results := some sr.social_results
    youtube_results := some sr.youtube_results
    viral_content := some sr.viral_content
    marketing_insights := sr.marketing_insights }

/-- The monitor's full recomputation applied to the coordinator state. -/
def monitorTotalOf (sr : SearchResults) : ℕ :=
  _calculate_total_size (toMonitorInput sr)

/-- All identity URLs held in the aggregate set, across the four
categories. -/
def allUrls (sr : SearchResults) : List String :=
  (sr.web_results ++ sr.social_results ++ sr.youtube_results ++
    sr.viral_content).map (fun r => r.url)

/-- A loop state that already meets the target returns unchanged from the
expansion loop, with zero collaborator calls (the break at the top of the
`for` body). -/
theorem expansionLoop_stopped {ε : Type} (collab : String → Except ε (Option Batch))
    (qs : List String) (sr : SearchResults)
    (h : target_content_size ≤ sr.total_content_size) :
    expansionLoop collab qs sr = (sr, 0) := by
  cases qs with
  | nil => rfl
  | cons q qs => simp [expansionLoop, h]

/-- C4: for every measured result set, the snapshot's `target_achieved` flag
is true iff the computed size in bytes is at least the size target, and the
size target is exactly 300 × 1024 bytes. -/
theorem c4_target_correctness (inp : MonitorInput) (sid : String) :
    ((monitor_content_collection inp sid).target_achieved = true ↔
      target_size_bytes ≤ _calculate_total_size inp) ∧
    target_size_bytes = 300 * 1024 := by
  constructor
  · simp [monitor_content_collection]
  · rfl

/-- C9: if the base batch alone already satisfies the size target, the
expansion loop performs zero search calls and leaves the state unchanged,
whatever queries were generated. -/
theorem c9_zero_expansion_when_base_meets_target {ε : Type}
    (collab : String → Except ε (Option Batch)) (qs : List String)
    (base_query session_id : String) (b : Batch)
    (h : target_content_size ≤ _calculate_content_size b) :
    expansionLoop collab qs
      (basePhase (initial_search_results base_query session_id) (some b)) =
      (basePhase (initial_search_results base_query session_id) (some b), 0) := by
  apply expansionLoop_stopped
  simpa [basePhase, initial_search_results] using h

/-- Coordinator-size of a one-item batch whose `content` is `n` copies of a
character (kept generic in `n` so the kernel never evaluates a 300-KiB
string). -/
theorem coordSize_replicate (n : ℕ) :
    _calculate_content_size
      { web_results := [{ content := String.mk (List.replicate n 'x') }] } = n := by
  have hlen : (String.mk (List.replicate n 'x')).length =
      (List.replicate n 'x').length := rfl
  have h0 : ("" : String).length = 0 := rfl
  simp only [_calculate_content_size, item_size_coord, List.append_nil,
    List.nil_append, List.map_cons, List.map_nil, List.sum_cons, List.sum_nil,
    hlen, List.length_replicate, h0]
  omega

/-- Witness for C9 at a concrete 300-KiB base batch. -/
theorem c9_zero_expansion_when_base_meets_target_witness :
    expansionLoop (ε := Unit) (fun _ => Except.ok none) (["extra query"])
      (basePhase (initial_search_results ("q") ("s"))
        (some { web_results := [{ content := String.mk (List.replicate 307200 'x') }] })) =
      (basePhase (initial_search_results ("q") ("s"))
        (some { web_results := [{ content := String.mk (List.replicate 307200 'x') }] }), 0) := by
  apply c9_zero_expansion_when_base_meets_target
  rw [coordSize_replicate]
  decide

/-- C2: whenever the base search and the insight extraction both succeed (so
the search, merge and insight-extraction phases all complete), the function
still does not return: its success path raises a `NameError` (line 195 reads
the undefined name `stats`), which its own `except` handler re-raises. -/
theorem c2_success_path_raises (ε : Type) (ob : Option Batch)
    (collab : String → Except ε (Option Batch)) (ins : Insights)
    (base_query session_id : String) (ctx : SearchContext) :
    execute_marketing_focused_search (Except.ok ob) collab (Except.ok ins)
      base_query session_id ctx = Except.error ExecErr.nameErrorStats := rfl

/-- C6: a collaborator failure on the first (base) round propagates to the
caller as a re-raised exception aborting the session, while a failure on any
expansion round is caught and the loop continues with the next query,
leaving the accumulated results exactly as they were. -/
theorem c6_failure_policy :
    (∀ (ε : Type) (e : ε) (collab : String → Except ε (Option Batch))
       (insightsRes : Except ε Insights) (base_query session_id : String)
       (ctx : SearchContext),
       execute_marketing_focused_search (Except.error e) collab insightsRes
         base_query session_id ctx = Except.error (ExecErr.fromCollaborator e)) ∧
    (∀ (ε : Type) (collab : String → Except ε (Option Batch)) (e : ε)
       (q : String) (qs : List String) (sr : SearchResults),
       collab q = Except.error e →
       (expansionLoop collab (q :: qs) sr).1 = (expansionLoop collab qs sr).1) := by
  constructor
  · intro ε e collab insightsRes base_query session_id ctx
    rfl
  · intro ε collab e q qs sr hq
    by_cases h : target_content_size ≤ sr.total_content_size
    · rw [expansionLoop_stopped collab qs sr h]
      simp [expansionLoop, h]
    · simp [expansionLoop, h, hq]

/-- Witness for C6 at concrete inputs: a failing base search aborts with the
re-raised error, and a failing expansion round leaves the state as if the
query had been skipped. -/
theorem c6_failure_policy_witness :
    execute_marketing_focused_search (ε := Unit) (Except.error ())
      (fun _ => Except.ok none) (Except.ok { total_insights := 0, high_value_count := 0 })
      ("q") ("s") { segmento := "", produto := "" } =
      Except.error (ExecErr.fromCollaborator ()) ∧
    (expansionLoop (ε := Unit) (fun _ => Except.error ()) (("a") :: [])
        (initial_search_results ("q") ("s"))).1 =
      (expansionLoop (ε := Unit) (fun _ => Except.error ()) []
        (initial_search_results ("q") ("s"))).1 :=
  ⟨c6_failure_policy.1 Unit () _ _ _ _ _,
   c6_failure_policy.2 Unit _ () ("a") [] _ rfl⟩

/-- Membership in first-occurrence dedup: exactly the elements of the list
that are not in the initial seen-set. -/
theorem mem_dedupKeepFirstAux (l : List String) :
    ∀ (seen : List String) (x : String),
      x ∈ dedupKeepFirstAux seen l ↔ x ∈ l ∧ x ∉ seen := by
  induction l with
  | nil => intro seen x; simp [dedupKeepFirstAux]
  | cons q qs ih =>
    intro seen x
    by_cases hq : q ∈ seen
    · simp only [dedupKeepFirstAux, if_pos hq, ih, List.mem_cons]
      constructor
      · rintro ⟨hx, hs⟩; exact ⟨Or.inr hx, hs⟩
      · rintro ⟨hx | hx, hs⟩
        · subst hx; exact absurd hq hs
        · exact ⟨hx, hs⟩
    · simp only [dedupKeepFirstAux, if_neg hq, List.mem_cons, ih]
      constructor
      · rintro (rfl | ⟨hx, hs⟩)
        · exact ⟨Or.inl rfl, hq⟩
        · exact ⟨Or.inr hx, fun hxs => hs (Or.inr hxs)⟩
      · rintro ⟨rfl | hx, hs⟩
        · exact Or.inl rfl
        · by_cases hxq : x = q
          · exact Or.inl hxq
          · exact Or.inr ⟨hx, by simp [List.mem_cons, hxq, hs]⟩

/-- First-occurrence dedup produces a duplicate-free list. -/
theorem nodup_dedupKeepFirstAux (l : List String) :
    ∀ seen : List String, (dedupKeepFirstAux seen l).Nodup := by
  induction l with
  | nil => intro seen; simp [dedupKeepFirstAux]
  | cons q qs ih =>
    intro seen
    by_cases hq : q ∈ seen
    · simpa [dedupKeepFirstAux, if_pos hq] using ih seen
    · simp only [dedupKeepFirstAux, if_neg hq, List.nodup_cons]
      refine ⟨fun hmem => ?_, ih (q :: seen)⟩
      have h := (mem_dedupKeepFirstAux qs (q :: seen) q).mp hmem
      exact h.2 (List.mem_cons_self q seen)

/-- `_generate_marketing_queries` always yields exactly 15 queries: the
generic catalog contributes 15 distinct strings, so the deduplicated
combined list has at least 15 entries and the `[:15]` slice is full. -/
theorem generate_marketing_queries_length (base_query : String)
    (ctx : SearchContext) :
    (_generate_marketing_queries base_query ctx).length = 15 := by
  unfold _generate_marketing_queries
  rw [List.length_take]
  apply Nat.min_eq_left
  set specific :=
    if ctx.segmento ≠ "" ∧ ctx.produto ≠ "" then
      specificQueries ctx.segmento ctx.produto
    else [] with hspec
  have hsub : marketing_focused_queries.toFinset ⊆
      (dedupKeepFirst (specific ++ marketing_focused_queries)).toFinset := by
    intro x hx
    rw [List.mem_toFinset] at hx ⊢
    exact (mem_dedupKeepFirstAux _ _ x).mpr
      ⟨List.mem_append_right _ hx, List.not_mem_nil x⟩
  have hnodup : marketing_focused_queries.Nodup := by decide
  calc 15 = marketing_focused_queries.toFinset.card := by
        rw [List.toFinset_card_of_nodup hnodup]; rfl
    _ ≤ (dedupKeepFirst (specific ++ marketing_focused_queries)).toFinset.card :=
        Finset.card_le_card hsub
    _ ≤ (dedupKeepFirst (specific ++ marketing_focused_queries)).length :=
        List.toFinset_card_le _

/-- With a collaborator that always returns an empty batch, every query in
the list is actually searched (one collaborator call each) and the running
counter never moves. -/
theorem expansionLoop_empty_batches {ε : Type}
    (collab : String → Except ε (Option Batch))
    (hc : ∀ q, collab q = Except.ok (some ({} : Batch))) (qs : List String) :
    ∀ sr : SearchResults, sr.total_content_size < target_content_size →
      (expansionLoop collab qs sr).2 = qs.length ∧
      (expansionLoop collab qs sr).1.total_content_size = sr.total_content_size := by
  induction qs with
  | nil => intro sr _; simp [expansionLoop]
  | cons q qs ih =>
    intro sr hsr
    have hnot : ¬ target_content_size ≤ sr.total_content_size := not_le.mpr hsr
    have hm : (mergeRound sr q {}).total_content_size = sr.total_content_size := rfl
    have h := ih (mergeRound sr q {}) (by rw [hm]; exact hsr)
    simp only [expansionLoop, if_neg hnot, hc q]
    exact ⟨by rw [h.1]; rfl, by rw [h.2, hm]⟩

/-- C7: given a search collaborator that always returns empty batches, the
acquisition loop issues exactly the configured maximum of 15 expansion
queries, terminates, and the final statistics report the target as not
achieved (the budget-exhausted outcome). -/
theorem c7_budget_termination (ε : Type)
    (collab : String → Except ε (Option Batch))
    (hc : ∀ q, collab q = Except.ok (some ({} : Batch)))
    (base_query session_id : String) (ctx : SearchContext) (ins : Insights) :
    (_generate_marketing_queries base_query ctx).length = 15 ∧
    (expansionLoop collab (_generate_marketing_queries base_query ctx)
      (basePhase (initial_search_results base_query session_id) (some {}))).2 = 15 ∧
    Statistics.target_achieved
      (updateStatistics
        (expansionLoop collab (_generate_marketing_queries base_query ctx)
          (basePhase (initial_search_results base_query session_id) (some {}))).1
        ins) = some false := by
  have hlen := generate_marketing_queries_length base_query ctx
  have hsr0 : (basePhase (initial_search_results base_query session_id)
      (some ({} : Batch))).total_content_size = 0 := rfl
  have h := expansionLoop_empty_batches collab hc
    (_generate_marketing_queries base_query ctx)
    (basePhase (initial_search_results base_query session_id) (some {}))
    (by rw [hsr0]; decide)
  refine ⟨hlen, by rw [h.1, hlen], ?_⟩
  simp only [updateStatistics]
  rw [h.2, hsr0]
  decide

/-- Witness for C7 at a concrete always-empty collaborator and context. -/
theorem c7_budget_termination_witness :
    (_generate_marketing_queries ("produto X") ({} : SearchContext)).length = 15 ∧
    (expansionLoop (ε := Unit) (fun _ => Except.ok (some {}))
      (_generate_marketing_queries ("produto X") ({} : SearchContext))
      (basePhase (initial_search_results ("produto X") ("sess1")) (some {}))).2 = 15 ∧
    Statistics.target_achieved
      (updateStatistics
        (expansionLoop (ε := Unit) (fun _ => Except.ok (some {}))
          (_generate_marketing_queries ("produto X") ({} : SearchContext))
          (basePhase (initial_search_results ("produto X") ("sess1")) (some {}))).1
        {}) = some false :=
  c7_budget_termination Unit (fun _ => Except.ok (some {})) (fun _ => rfl)
    ("produto X") ("sess1") {} {}

/-- Every incoming item's URL is empty, already seen, or among the URLs the
filter kept. -/
theorem filterUniqueAux_covers (new : List ResultItem) :
    ∀ (seen : List String) (x : ResultItem), x ∈ new →
      x.url = "" ∨ x.url ∈ seen ∨
        x.url ∈ (filterUniqueAux new seen).map (fun r => r.url) := by
  induction new with
  | nil => intro seen x hx; cases hx
  | cons r rs ih =>
    intro seen x hx
    by_cases hc : r.url ≠ "" ∧ r.url ∉ seen
    · rw [List.mem_cons] at hx
      rcases hx with rfl | hx
      · right; right
        simp [filterUniqueAux, if_pos hc]
      · rcases ih (r.url :: seen) x hx with h | h | h
        · exact Or.inl h
        · rw [List.mem_cons] at h
          rcases h with h | h
          · right; right
            simp [filterUniqueAux, if_pos hc, h]
          · exact Or.inr (Or.inl h)
        · right; right
          simp only [filterUniqueAux, if_pos hc, List.map_cons, List.mem_cons]
          exact Or.inr h
    · rw [List.mem_cons] at hx
      rcases hx with rfl | hx
      · rcases not_and_or.mp hc with h | h
        · exact Or.inl (not_not.mp h)
        · exact Or.inr (Or.inl (not_not.mp h))
      · rcases ih seen x hx with h | h | h
        · exact Or.inl h
        · exact Or.inr (Or.inl h)
        · right; right
          simpa [filterUniqueAux, if_neg hc] using h

/-- If every incoming URL is empty or already seen, the filter keeps
nothing. -/
theorem filterUniqueAux_eq_nil (new : List ResultItem) :
    ∀ seen : List String, (∀ x ∈ new, x.url = "" ∨ x.url ∈ seen) →
      filterUniqueAux new seen = [] := by
  induction new with
  | nil => intro seen _; rfl
  | cons r rs ih =>
    intro seen h
    have hr := h r (List.mem_cons_self r rs)
    have hc : ¬ (r.url ≠ "" ∧ r.url ∉ seen) := by
      rcases hr with h1 | h1
      · exact fun hand => hand.1 h1
      · exact fun hand => hand.2 h1
    rw [filterUniqueAux, if_neg hc]
    exact ih seen (fun x hx => h x (List.mem_cons_of_mem r hx))

/-- Normal form of `_add_unique_results`: the three category lists are
extended by their filtered uniques and the returned size is the
coordinator-size of exactly those kept items. -/
theorem add_unique_eq (sr : SearchResults) (b : Batch) :
    _add_unique_results sr b =
      ({ sr with
          web_results := sr.web_results ++
            _filter_unique_results b.web_results sr.web_results
          social_results := sr.social_results ++
            _filter_unique_results b.social_results sr.social_results
          youtube_results := sr.youtube_results ++
            _filter_unique_results b.youtube_results sr.youtube_results },
        coordSizeOf (_filter_unique_results b.web_results sr.web_results) +
          coordSizeOf (_filter_unique_results b.social_results sr.social_results) +
          coordSizeOf (_filter_unique_results b.youtube_results sr.youtube_results)) := by
  unfold _add_unique_results
  by_cases h1 : (_filter_unique_results b.web_results sr.web_results).isEmpty <;>
    by_cases h2 : (_filter_unique_results b.social_results sr.social_results).isEmpty <;>
      by_cases h3 : (_filter_unique_results b.youtube_results sr.youtube_results).isEmpty <;>
        simp_all [List.isEmpty_iff, coordSizeOf]

/-- Re-filtering a batch against a list already extended by that batch's
kept items removes everything. -/
theorem filter_append_filter_eq_nil (new existing : List ResultItem) :
    _filter_unique_results new
      (existing ++ _filter_unique_results new existing) = [] := by
  unfold _filter_unique_results
  apply filterUniqueAux_eq_nil
  intro x hx
  rcases filterUniqueAux_covers new (existing.map (fun r => r.url)) x hx with h | h | h
  · exact Or.inl h
  · right; rw [List.map_append]; exact List.mem_append_left _ h
  · right; rw [List.map_append]; exact List.mem_append_right _ h

/-- C5: merging the same batch twice through `_add_unique_results` is
idempotent — the second merge keeps zero items, reports zero added bytes,
and leaves the aggregate set (per-category lists and total size)
unchanged. -/
theorem c5_dedup_idempotent (sr : SearchResults) (b : Batch) :
    _add_unique_results (mergeBatch sr b) b = (mergeBatch sr b, 0) ∧
    mergeBatch (mergeBatch sr b) b = mergeBatch sr b := by
  have hm : (mergeBatch sr b).web_results =
      sr.web_results ++ _filter_unique_results b.web_results sr.web_results := by
    simp only [mergeBatch, add_unique_eq]
  have hms : (mergeBatch sr b).social_results =
      sr.social_results ++ _filter_unique_results b.social_results sr.social_results := by
    simp only [mergeBatch, add_unique_eq]
  have hmy : (mergeBatch sr b).youtube_results =
      sr.youtube_results ++ _filter_unique_results b.youtube_results sr.youtube_results := by
    simp only [mergeBatch, add_unique_eq]
  have h1 : _filter_unique_results b.web_results (mergeBatch sr b).web_results = [] := by
    rw [hm]; exact filter_append_filter_eq_nil _ _
  have h2 : _filter_unique_results b.social_results (mergeBatch sr b).social_results = [] := by
    rw [hms]; exact filter_append_filter_eq_nil _ _
  have h3 : _filter_unique_results b.youtube_results (mergeBatch sr b).youtube_results = [] := by
    rw [hmy]; exact filter_append_filter_eq_nil _ _
  have hadd : _add_unique_results (mergeBatch sr b) b = (mergeBatch sr b, 0) := by
    rw [add_unique_eq (mergeBatch sr b) b, h1, h2, h3]
    simp [coordSizeOf]
  refine ⟨hadd, ?_⟩
  have hdef : mergeBatch (mergeBatch sr b) b =
      { (_add_unique_results (mergeBatch sr b) b).1 with
        total_content_size :=
          (_add_unique_results (mergeBatch sr b) b).1.total_content_size +
            (_add_unique_results (mergeBatch sr b) b).2 } := rfl
  rw [hdef, hadd]
  rfl

/-- The filter keeps items with pairwise-distinct URLs, none of which were
already seen. -/
theorem filterUniqueAux_urls_nodup (new : List ResultItem) :
    ∀ seen : List String,
      ((filterUniqueAux new seen).map (fun r => r.url)).Nodup ∧
        ∀ u ∈ (filterUniqueAux new seen).map (fun r => r.url), u ∉ seen := by
  induction new with
  | nil =>
    intro seen
    exact ⟨List.nodup_nil, by intro u hu; cases hu⟩
  | cons r rs ih =>
    intro seen
    by_cases hc : r.url ≠ "" ∧ r.url ∉ seen
    · obtain ⟨hnd, hni⟩ := ih (r.url :: seen)
      rw [filterUniqueAux, if_pos hc]
      constructor
      · rw [List.map_cons, List.nodup_cons]
        refine ⟨fun hmem => ?_, hnd⟩
        exact hni r.url hmem (List.mem_cons_self _ _)
      · intro u hu
        rw [List.map_cons, List.mem_cons] at hu
        rcases hu with rfl | hu
        · exact hc.2
        · exact fun hu2 => hni u hu (List.mem_cons_of_mem _ hu2)
    · rw [filterUniqueAux, if_neg hc]
      exact ih seen

/-- Appending the filtered uniques to a duplicate-free category keeps its
URL list duplicate-free. -/
theorem nodup_append_filter (l new : List ResultItem)
    (h : (l.map (fun r => r.url)).Nodup) :
    ((l ++ _filter_unique_results new l).map (fun r => r.url)).Nodup := by
  rw [List.map_append, List.nodup_append]
  obtain ⟨hnd, hni⟩ :=
    filterUniqueAux_urls_nodup new (l.map (fun r => r.url))
  exact ⟨h, hnd, fun u hu hu2 => hni u hu2 hu⟩

/-- C8 (amended): if each category's URL list is duplicate-free when the
expansion loop starts (the base round is merged unfiltered, so this is a
hypothesis on the base batch), then it stays duplicate-free at every point
of the loop; nothing prevents the SAME url from appearing in two DIFFERENT
categories. -/
theorem c8_per_category_url_nodup {ε : Type}
    (collab : String → Except ε (Option Batch)) (qs : List String) :
    ∀ sr : SearchResults,
      (sr.web_results.map (fun r => r.url)).Nodup →
      (sr.social_results.map (fun r => r.url)).Nodup →
      (sr.youtube_results.map (fun r => r.url)).Nodup →
      ((expansionLoop collab qs sr).1.web_results.map (fun r => r.url)).Nodup ∧
      ((expansionLoop collab qs sr).1.social_results.map (fun r => r.url)).Nodup ∧
      ((expansionLoop collab qs sr).1.youtube_results.map (fun r => r.url)).Nodup := by
  induction qs with
  | nil => intro sr h1 h2 h3; exact ⟨h1, h2, h3⟩
  | cons q qs ih =>
    intro sr h1 h2 h3
    by_cases ht : target_content_size ≤ sr.total_content_size
    · simp only [expansionLoop, if_pos ht]
      exact ⟨h1, h2, h3⟩
    · simp only [expansionLoop, if_neg ht]
      cases hcq : collab q with
      | error e => exact ih sr h1 h2 h3
      | ok ob =>
        cases ob with
        | none => exact ih sr h1 h2 h3
        | some res =>
          exact ih (mergeRound sr q res)
            (nodup_append_filter sr.web_results res.web_results h1)
            (nodup_append_filter sr.social_results res.social_results h2)
            (nodup_append_filter sr.youtube_results res.youtube_results h3)

/-- Witness for C8 at a concrete base state and expansion round. -/
theorem c8_per_category_url_nodup_witness :
    ((expansionLoop (ε := Unit)
        (fun _ => Except.ok (some { web_results := [{ url := "a" }, { url := "c" }] }))
        (["q1"])
        (basePhase (initial_search_results ("q") ("s"))
          (some { web_results := [{ url := "a" }],
                  social_results := [{ url := "b" }] }))).1.web_results.map
        (fun r => r.url)).Nodup ∧
     ((expansionLoop (ε := Unit)
        (fun _ => Except.ok (some { web_results := [{ url := "a" }, { url := "c" }] }))
        (["q1"])
        (basePhase (initial_search_results ("q") ("s"))
          (some { web_results := [{ url := "a" }],
                  social_results := [{ url := "b" }] }))).1.social_results.map
        (fun r => r.url)).Nodup ∧
     ((expansionLoop (ε := Unit)
        (fun _ => Except.ok (some { web_results := [{ url := "a" }, { url := "c" }] }))
        (["q1"])
        (basePhase (initial_search_results ("q") ("s"))
          (some { web_results := [{ url := "a" }],
                  social_results := [{ url := "b" }] }))).1.youtube_results.map
        (fun r => r.url)).Nodup :=
  c8_per_category_url_nodup
    (fun _ => Except.ok (some { web_results := [{ url := "a" }, { url := "c" }] }))
    (["q1"])
    (basePhase (initial_search_results ("q") ("s"))
      (some { web_results := [{ url := "a" }], social_results := [{ url := "b" }] }))
    (by decide) (by decide) (by decide)

/-- C8 counterexample: the base round is merged without any cross-category
dedup, so one batch carrying the same URL in `web_results` and
`social_results` puts two items with the same identity URL into the
aggregate set — the claimed all-category uniqueness fails. -/
theorem c8_counterexample :
    ¬ (allUrls
        (basePhase (initial_search_results ("q") ("s"))
          (some { web_results := [{ url := "d" }],
                  social_results := [{ url := "d" }] }))).Nodup := by
  decide

/-- A batch is "clean" relative to the current aggregate when the unique
filter would keep every one of its web/social/youtube items (fresh,
non-empty, batch-internally distinct URLs) and none of those items carries
a `caption` (the one text field counted by the monitor but not by the
coordinator). -/
def cleanBatchFor (sr : SearchResults) (b : Batch) : Bool :=
  decide (_filter_unique_results b.web_results sr.web_results = b.web_results) &&
  decide (_filter_unique_results b.social_results sr.social_results = b.social_results) &&
  decide (_filter_unique_results b.youtube_results sr.youtube_results = b.youtube_results) &&
  (b.web_results ++ b.social_results ++ b.youtube_results).all
    (fun r => decide (r.caption = ""))

/-- Chain-wise cleanliness of a sequence of merge rounds: each batch is
clean for the state it is merged into. -/
def goodSeq (sr : SearchResults) : List (String × Batch) → Bool
  | [] => true
  | (q, b) :: rest => cleanBatchFor sr b && goodSeq (mergeRound sr q b) rest

/-- Merging a clean batch grows the monitor recomputation by exactly the
coordinator-size of the batch. -/
theorem monitorTotalOf_mergeRound_clean (sr : SearchResults) (q : String)
    (b : Batch) (hclean : cleanBatchFor sr b = true) :
    monitorTotalOf (mergeRound sr q b) =
      monitorTotalOf sr + _calculate_content_size b := by
  simp only [cleanBatchFor, Bool.and_eq_true, decide_eq_true_eq,
    List.all_eq_true] at hclean
  obtain ⟨⟨⟨hw, hs⟩, hy⟩, hcap⟩ := hclean
  have hmonw : (b.web_results.map item_size_mon).sum =
      (b.web_results.map item_size_coord).sum := by
    rw [List.map_congr_left]
    intro x hx
    have hc := hcap x (List.mem_append_left _ (List.mem_append_left _ hx))
    simp [item_size_mon, item_size_coord, hc]
  have hmons : (b.social_results.map item_size_mon).sum =
      (b.social_results.map item_size_coord).sum := by
    rw [List.map_congr_left]
    intro x hx
    have hc := hcap x (List.mem_append_left _ (List.mem_append_right _ hx))
    simp [item_size_mon, item_size_coord, hc]
  have hmony : (b.youtube_results.map item_size_mon).sum =
      (b.youtube_results.map item_size_coord).sum := by
    rw [List.map_congr_left]
    intro x hx
    have hc := hcap x (List.mem_append_right _ hx)
    simp [item_size_mon, item_size_coord, hc]
  simp only [monitorTotalOf, _calculate_total_size, toMonitorInput, getResults,
    Option.getD, mergeRound, hw, hs, hy, List.map_append, List.sum_append,
    _calculate_content_size]
  rw [hmonw, hmons, hmony]
  omega

/-- C1 (amended): across any sequence of FASE-2-style merge rounds in which
every batch is clean (no duplicate or empty URLs among its web/social/youtube
items relative to the state it merges into, and no `caption` text), the
running counter stays equal to the monitor's full recomputation; without
those conditions the two measures diverge (see the counterexample). -/
theorem c1_size_consistency (rounds : List (String × Batch)) :
    ∀ sr : SearchResults,
      sr.total_content_size = monitorTotalOf sr →
      goodSeq sr rounds = true →
      (mergeRounds sr rounds).total_content_size =
        monitorTotalOf (mergeRounds sr rounds) := by
  induction rounds with
  | nil => intro sr h0 _; exact h0
  | cons qb rest ih =>
    obtain ⟨q, b⟩ := qb
    intro sr h0 hg
    simp only [goodSeq, Bool.and_eq_true] at hg
    have hstep : (mergeRound sr q b).total_content_size =
        monitorTotalOf (mergeRound sr q b) := by
      have h1 : (mergeRound sr q b).total_content_size =
          sr.total_content_size + _calculate_content_size b := rfl
      rw [h1, monitorTotalOf_mergeRound_clean sr q b hg.1, h0]
    exact ih (mergeRound sr q b) hstep hg.2

/-- Witness for C1 at a concrete clean round merged into an empty session. -/
theorem c1_size_consistency_witness :
    (mergeRounds (initial_search_results ("q") ("s"))
      ([(("e1"), { web_results := [{ url := "u1", title := "t1" }] })])).total_content_size =
      monitorTotalOf
        (mergeRounds (initial_search_results ("q") ("s"))
          ([(("e1"), { web_results := [{ url := "u1", title := "t1" }] })])) :=
  c1_size_consistency
    ([(("e1"), { web_results := [{ url := "u1", title := "t1" }] })])
    (initial_search_results ("q") ("s")) (by decide) (by decide)

/-- C1 counterexample: one merge round whose single kept item carries only a
`caption` makes the running counter 0 (the merge-time field list has no
`caption`) while the snapshot recomputation measures 2 bytes — the two
"content size" definitions are not the same fixed text-field list. -/
theorem c1_counterexample :
    (mergeRounds (initial_search_results ("q") ("s"))
      ([(("e1"), { web_results := [{ url := "u1", caption := "ab" }] })])).total_content_size = 0 ∧
    monitorTotalOf
      (mergeRounds (initial_search_results ("q") ("s"))
        ([(("e1"), { web_results := [{ url := "u1", caption := "ab" }] })])) = 2 := by
  decide

/-- A guarded count-over-total score lies in [0, 10] whenever the count is
at most the total. -/
theorem guarded_ratio_bounds (c t : ℕ) (h : c ≤ t) :
    0 ≤ (if 0 < t then (c : ℚ) / (t : ℚ) * 10 else 0) ∧
      (if 0 < t then (c : ℚ) / (t : ℚ) * 10 else 0) ≤ 10 := by
  by_cases ht : 0 < t
  · rw [if_pos ht]
    have ht' : (0 : ℚ) < (t : ℚ) := by exact_mod_cast ht
    have h1 : (c : ℚ) / (t : ℚ) ≤ 1 := by
      rw [div_le_one ht']
      exact_mod_cast h
    have h0 : (0 : ℚ) ≤ (c : ℚ) / (t : ℚ) := by positivity
    constructor
    · positivity
    · calc (c : ℚ) / (t : ℚ) * 10 ≤ 1 * 10 := by
            exact mul_le_mul_of_nonneg_right h1 (by norm_num)
        _ = 10 := one_mul 10
  · rw [if_neg ht]
    norm_num

/-- A guarded ratio is never negative (no matter how large the
numerator). -/
theorem guarded_ratio_nonneg (c t : ℕ) :
    0 ≤ (if 0 < t then (c : ℚ) / (t : ℚ) * 10 else 0) := by
  by_cases ht : 0 < t
  · rw [if_pos ht]; positivity
  · rw [if_neg ht]

/-- C3 (amended): for every input, diversity, reliability, relevance and
engagement lie in [0, 10] and the viral ratio is never negative; the viral
ratio is `len(viral_content) / len(web+social+youtube) * 10` — its
denominator EXCLUDES the trending items themselves, so it can exceed 10 —
and whenever it is at most 10 (e.g. no more viral items than other items)
the weighted overall score also lies in [0, 10]. -/
theorem c3_quality_bounds (inp : MonitorInput) :
    (0 ≤ QualityMetrics.content_diversity (_calculate_quality_metrics inp) ∧
      QualityMetrics.content_diversity (_calculate_quality_metrics inp) ≤ 10) ∧
    (0 ≤ QualityMetrics.source_reliability (_calculate_quality_metrics inp) ∧
      QualityMetrics.source_reliability (_calculate_quality_metrics inp) ≤ 10) ∧
    (0 ≤ QualityMetrics.marketing_relevance (_calculate_quality_metrics inp) ∧
      QualityMetrics.marketing_relevance (_calculate_quality_metrics inp) ≤ 10) ∧
    (0 ≤ QualityMetrics.viral_content_ratio (_calculate_quality_metrics inp)) ∧
    (0 ≤ QualityMetrics.engagement_quality (_calculate_quality_metrics inp) ∧
      QualityMetrics.engagement_quality (_calculate_quality_metrics inp) ≤ 10) ∧
    QualityMetrics.viral_content_ratio (_calculate_quality_metrics inp) =
      (if 0 < (getResults inp.web_results ++ getResults inp.social_results ++
            getResults inp.youtube_results).length
       then ((getResults inp.viral_content).length : ℚ) /
          ((getResults inp.web_results ++ getResults inp.social_results ++
            getResults inp.youtube_results).length : ℚ) * 10
       else 0) ∧
    (QualityMetrics.viral_content_ratio (_calculate_quality_metrics inp) ≤ 10 →
      0 ≤ QualityMetrics.overall_quality (_calculate_quality_metrics inp) ∧
        QualityMetrics.overall_quality (_calculate_quality_metrics inp) ≤ 10) := by
  have hdiv : QualityMetrics.content_diversity (_calculate_quality_metrics inp) =
      ((min 10 ((( getResults inp.web_results ++ getResults inp.social_results ++
        getResults inp.youtube_results).map
          (fun r => r.platform ++ "_" ++ r.source)).dedup.length) : ℕ) : ℚ) := rfl
  have hrel : QualityMetrics.source_reliability (_calculate_quality_metrics inp) =
      (if 0 < (getResults inp.web_results ++ getResults inp.social_results ++
            getResults inp.youtube_results).length
       then ((( getResults inp.web_results ++ getResults inp.social_results ++
            getResults inp.youtube_results).filter
              (fun r => reliable_domains.any (fun d => strContainsB r.url d))).length : ℚ) /
          ((getResults inp.web_results ++ getResults inp.social_results ++
            getResults inp.youtube_results).length : ℚ) * 10
       else 0) := rfl
  have hmar : QualityMetrics.marketing_relevance (_calculate_quality_metrics inp) =
      (if 0 < (getResults inp.web_results ++ getResults inp.social_results ++
            getResults inp.youtube_results).length
       then ((( getResults inp.web_results ++ getResults inp.social_results ++
            getResults inp.youtube_results).filter
              (fun r => marketing_keywords.any
                (fun k => strContainsB (lowerStr (_get_item_text r)) k))).length : ℚ) /
          ((getResults inp.web_results ++ getResults inp.social_results ++
            getResults inp.youtube_results).length : ℚ) * 10
       else 0) := rfl
  have hvir : QualityMetrics.viral_content_ratio (_calculate_quality_metrics inp) =
      (if 0 < (getResults inp.web_results ++ getResults inp.social_results ++
            getResults inp.youtube_results).length
       then ((getResults inp.viral_content).length : ℚ) /
          ((getResults inp.web_results ++ getResults inp.social_results ++
            getResults inp.youtube_results).length : ℚ) * 10
       else 0) := rfl
  have heng : QualityMetrics.engagement_quality (_calculate_quality_metrics inp) =
      (if 0 < (getResults inp.web_results ++ getResults inp.social_results ++
            getResults inp.youtube_results).length
       then ((( getResults inp.web_results ++ getResults inp.social_results ++
            getResults inp.youtube_results).filter
              (fun r => 7 ≤ r.viral_score)).length : ℚ) /
          ((getResults inp.web_results ++ getResults inp.social_results ++
            getResults inp.youtube_results).length : ℚ) * 10
       else 0) := rfl
  have hover : QualityMetrics.overall_quality (_calculate_quality_metrics inp) =
      QualityMetrics.content_diversity (_calculate_quality_metrics inp) * 0.2 +
      QualityMetrics.source_reliability (_calculate_quality_metrics inp) * 0.25 +
      QualityMetrics.marketing_relevance (_calculate_quality_metrics inp) * 0.3 +
      QualityMetrics.viral_content_ratio (_calculate_quality_metrics inp) * 0.15 +
      QualityMetrics.engagement_quality (_calculate_quality_metrics inp) * 0.1 := rfl
  have hd : (0 ≤ QualityMetrics.content_diversity (_calculate_quality_metrics inp) ∧
      QualityMetrics.content_diversity (_calculate_quality_metrics inp) ≤ 10) := by
    rw [hdiv]
    constructor
    · exact_mod_cast Nat.zero_le _
    · exact_mod_cast Nat.min_le_left 10 _
  have hr := guarded_ratio_bounds _ _
    (List.length_filter_le
      (fun r => reliable_domains.any (fun d => strContainsB r.url d))
      (getResults inp.web_results ++ getResults inp.social_results ++
        getResults inp.youtube_results))
  have hm := guarded_ratio_bounds _ _
    (List.length_filter_le
      (fun r => marketing_keywords.any
        (fun k => strContainsB (lowerStr (_get_item_text r)) k))
      (getResults inp.web_results ++ getResults inp.social_results ++
        getResults inp.youtube_results))
  have he := guarded_ratio_bounds _ _
    (List.length_filter_le (fun r => 7 ≤ r.viral_score)
      (getResults inp.web_results ++ getResults inp.social_results ++
        getResults inp.youtube_results))
  have hvn := guarded_ratio_nonneg (getResults inp.viral_content).length
    (getResults inp.web_results ++ getResults inp.social_results ++
      getResults inp.youtube_results).length
  rw [← hrel] at hr
  rw [← hmar] at hm
  rw [← heng] at he
  rw [← hvir] at hvn
  refine ⟨hd, hr, hm, hvn, he, hvir, ?_⟩
  intro hv
  rw [hover]
  constructor
  · linarith [hd.1, hr.1, hm.1, hvn, he.1]
  · linarith [hd.2, hr.2, hm.2, hv, he.2, hd.1, hr.1, hm.1, hvn, he.1]

/-- Witness for C3 at the empty input (viral ratio 0 ≤ 10). -/
theorem c3_quality_bounds_witness :
    0 ≤ QualityMetrics.overall_quality
        (_calculate_quality_metrics
          { web_results := none, social_results := none,
            youtube_results := none, viral_content := none,
            marketing_insights := none }) ∧
    QualityMetrics.overall_quality
        (_calculate_quality_metrics
          { web_results := none, social_results := none,
            youtube_results := none, viral_content := none,
            marketing_insights := none }) ≤ 10 :=
  (c3_quality_bounds
    { web_results := none, social_results := none, youtube_results := none,
      viral_content := none, marketing_insights := none }).2.2.2.2.2.2
    (by norm_num [_calculate_quality_metrics, getResults])

/-- C3 counterexample: two viral items against a single web item give a
viral sub-score of 2/1×10 = 20 > 10, refuting both the claimed [0, 10]
bound for every sub-score and the claimed "÷ total items" denominator
(which would give 2/3×10). -/
theorem c3_counterexample :
    QualityMetrics.viral_content_ratio
      (_calculate_quality_metrics
        { web_results := some [{ url := "u1" }],
          viral_content := some [{ url := "v1" }, { url := "v2" }] }) = 20 ∧
    ¬ (QualityMetrics.viral_content_ratio
        (_calculate_quality_metrics
          { web_results := some [{ url := "u1" }],
            viral_content := some [{ url := "v1" }, { url := "v2" }] }) ≤ 10) := by
  constructor
  · norm_num [_calculate_quality_metrics, getResults]
  · norm_num [_calculate_quality_metrics, getResults]

/-- All-zero per-category breakdown entry. -/
def zeroTypeBreakdown : TypeBreakdown :=
  { count := 0, size_bytes := 0, size_kb := 0, avg_size_per_item := 0,
    percentage_of_total := 0 }

/-- All-zero quality metrics. -/
def zeroQualityMetrics : QualityMetrics :=
  { content_diversity := 0, source_reliability := 0, marketing_relevance := 0,
    viral_content_ratio := 0, engagement_quality := 0, overall_quality := 0 }

/-- The recommendation list the monitor produces for an empty collection:
expand (full 300 KB deficit), low quality plus all three sub-hints, and the
balanced-distribution note. -/
def degenerateRecommendations : List Recommendation :=
  [Recommendation.expandSearch 300, Recommendation.complementaryQueriesHint,
   Recommendation.lowQuality 0, Recommendation.improveRelevance,
   Recommendation.moreViralContent, Recommendation.improveSources,
   Recommendation.goodDiversity]

/-- C10: an empty or category-incomplete result set (every category key
missing or empty, no insights) still yields a well-formed snapshot whose
metrics are all zero, whose target flag is false, and whose recommendation
list is the fixed degenerate one — the (total) measurement never raises. -/
theorem c10_degenerate_input_snapshot (inp : MonitorInput) (sid : String)
    (hw : inp.web_results = none ∨ inp.web_results = some [])
    (hs : inp.social_results = none ∨ inp.social_results = some [])
    (hy : inp.youtube_results = none ∨ inp.youtube_results = some [])
    (hv : inp.viral_content = none ∨ inp.viral_content = some [])
    (hi : inp.marketing_insights = none) :
    monitor_content_collection inp sid =
      { session_id := sid
        target_size_kb := 300
        current_size_kb := 0
        current_size_bytes := 0
        quality_score := 0
        content_breakdown :=
          { web_results := zeroTypeBreakdown, social_results := zeroTypeBreakdown,
            youtube_results := zeroTypeBreakdown, viral_content := zeroTypeBreakdown }
        size_by_source := []
        quality_metrics := zeroQualityMetrics
        recommendations := degenerateRecommendations
        target_achieved := false } := by
  have e1 : getResults inp.web_results = [] := by
    rcases hw with h | h <;> simp [getResults, h]
  have e2 : getResults inp.social_results = [] := by
    rcases hs with h | h <;> simp [getResults, h]
  have e3 : getResults inp.youtube_results = [] := by
    rcases hy with h | h <;> simp [getResults, h]
  have e4 : getResults inp.viral_content = [] := by
    rcases hv with h | h <;> simp [getResults, h]
  norm_num [monitor_content_collection, _calculate_total_size,
    _analyze_content_breakdown, _analyze_size_by_source,
    _calculate_quality_metrics, _generate_recommendations, e1, e2, e3, e4, hi,
    mkTypeBreakdown, typeStats, zeroTypeBreakdown, zeroQualityMetrics,
    degenerateRecommendations, target_size_bytes, target_size_kb]

/-- Witness for C10 at a concrete degenerate input mixing missing and
empty category keys. -/
theorem c10_degenerate_input_snapshot_witness :
    monitor_content_collection
      { web_results := none, social_results := some [],
        youtube_results := none, viral_content := some [],
        marketing_insights := none } ("sess-x") =
      { session_id := ("sess-x")
        target_size_kb := 300
        current_size_kb := 0
        current_size_bytes := 0
        quality_score := 0
        content_breakdown :=
          { web_results := zeroTypeBreakdown, social_results := zeroTypeBreakdown,
            youtube_results := zeroTypeBreakdown, viral_content := zeroTypeBreakdown }
        size_by_source := []
        quality_metrics := zeroQualityMetrics
        recommendations := degenerateRecommendations
        target_achieved := false } :=
  c10_degenerate_input_snapshot
    { web_results := none, social_results := some [], youtube_results := none,
      viral_content := some [], marketing_insights := none } ("sess-x")
    (Or.inl rfl) (Or.inr rfl) (Or.inl rfl) (Or.inr rfl) rfl
